import Mathlib

/-!
Verification of the Trino-to-Google-Sheets export script (`main.py`).

The script's externally visible behaviour is modelled as pure Lean functions:
network calls are replaced by explicit outcome schedules (one outcome per
attempted request), the Google Sheets sink is a list of rows, and the retry
loops of `create_google_sheet`, `write_dataframe_to_sheet` and
`move_sheet_to_folder` are transliterated with a fuel argument equal to the
number of remaining loop iterations.  The theorems at the end of the file
settle the specification claims against these models.
-/

set_option autoImplicit false

namespace TrinoGsheets

universe u

/-- Outcome of one `execute()` call against the Google API: a value, an
`HttpError` carrying an HTTP status code, or any other exception carrying
its message. -/
inductive ApiOutcome (α : Type u) where
  | ok : α → ApiOutcome α
  | httpError : Nat → ApiOutcome α
  | otherError : String → ApiOutcome α
deriving DecidableEq

/-- Result of a whole wrapped operation: either the returned value or the
message of the raised `RuntimeError`. -/
inductive CallResult (α : Type u) where
  | success : α → CallResult α
  | failure : String → CallResult α
deriving DecidableEq

/-- `MAX_RETRIES = 5` in every wrapped operation of `main.py`. -/
def MAX_RETRIES : Nat := 5

/-- `INITIAL_RETRY_DELAY = 1` in every wrapped operation of `main.py`. -/
def INITIAL_RETRY_DELAY : Nat := 1

/-- The transient status codes of `main.py`:
`e.resp.status in [429, 500, 502, 503, 504]`. -/
def isRetryableStatus (s : Nat) : Bool :=
  [429, 500, 502, 503, 504].contains s

/-- Rendering of an `HttpError` in a wrapped `RuntimeError` message. -/
def httpErrMsg (s : Nat) : String :=
  "HttpError " ++ toString s

/-- The retry loop of `create_google_sheet` (`main.py` lines 200-236).
`attempts r` is the outcome of the `spreadsheets().create().execute()` call
on loop iteration `r`; the fuel argument counts the remaining iterations of
`for retry in range(MAX_RETRIES)`.  Returns the call result, the number of
network calls made, and the list of backoff waits in order. -/
def createSheetLoop (attempts : Nat → ApiOutcome String) :
    Nat → Nat → CallResult String × Nat × List Nat
  | 0, _ => (.failure "Failed to create Google Sheet after retries", 0, [])
  | fuel + 1, r =>
    match attempts r with
    | .ok v => (.success v, 1, [])
    | .httpError s =>
      if MAX_RETRIES - 1 ≤ r || !(isRetryableStatus s) then
        (.failure ("Failed to create Google Sheet: " ++ httpErrMsg s), 1, [])
      else
        let w := INITIAL_RETRY_DELAY * 2 ^ r
        let rest := createSheetLoop attempts fuel (r + 1)
        (rest.1, rest.2.1 + 1, w :: rest.2.2)
    | .otherError m =>
      (.failure ("Failed to create Google Sheet: " ++ m), 1, [])

/-- `create_google_sheet` (`main.py` lines 192-236), with the network
abstracted into the outcome schedule `attempts`. -/
def create_google_sheet (attempts : Nat → ApiOutcome String) :
    CallResult String × Nat × List Nat :=
  createSheetLoop attempts MAX_RETRIES 0

/-- The retry loop of `move_sheet_to_folder` (`main.py` lines 349-384).
Each iteration makes a `files().get` call (outcome `getA r`, returning the
current parents) and, if it succeeds, a `files().update` call (outcome
`updA r`).  Returns the call result, the number of network calls made, and
the backoff waits in order. -/
def moveSheetLoop (getA : Nat → ApiOutcome (List String))
    (updA : Nat → ApiOutcome Unit) :
    Nat → Nat → CallResult Unit × Nat × List Nat
  | 0, _ => (.failure "Failed to move Google Sheet to folder after retries", 0, [])
  | fuel + 1, r =>
    match getA r with
    | .ok _ =>
      match updA r with
      | .ok _ => (.success (), 2, [])
      | .httpError s =>
        if MAX_RETRIES - 1 ≤ r || !(isRetryableStatus s) then
          (.failure ("Failed to move Google Sheet to folder: " ++ httpErrMsg s), 2, [])
        else
          let w := INITIAL_RETRY_DELAY * 2 ^ r
          let rest := moveSheetLoop getA updA fuel (r + 1)
          (rest.1, rest.2.1 + 2, w :: rest.2.2)
      | .otherError m =>
        (.failure ("Failed to move Google Sheet to folder: " ++ m), 2, [])
    | .httpError s =>
      if MAX_RETRIES - 1 ≤ r || !(isRetryableStatus s) then
        (.failure ("Failed to move Google Sheet to folder: " ++ httpErrMsg s), 1, [])
      else
        let w := INITIAL_RETRY_DELAY * 2 ^ r
        let rest := moveSheetLoop getA updA fuel (r + 1)
        (rest.1, rest.2.1 + 1, w :: rest.2.2)
    | .otherError m =>
      (.failure ("Failed to move Google Sheet to folder: " ++ m), 1, [])

/-- `move_sheet_to_folder` (`main.py` lines 337-384), with the two network
calls of each attempt abstracted into the schedules `getA` and `updA`. -/
def move_sheet_to_folder (getA : Nat → ApiOutcome (List String))
    (updA : Nat → ApiOutcome Unit) :
    CallResult Unit × Nat × List Nat :=
  moveSheetLoop getA updA MAX_RETRIES 0

/-- `BATCH_SIZE = 5000` in `write_dataframe_to_sheet`. -/
def BATCH_SIZE : Nat := 5000

variable {α : Type u}

/-- A values-write request issued to the sheet: `update` is
`values().update` (range-qualified overwrite) and `append` is
`values().append` with `INSERT_ROWS`.  The `Nat` is the 1-based start row
from which the `Sheet1!A{row}` range string is formatted. -/
inductive WriteCall (α : Type u) where
  | update : Nat → List α → WriteCall α
  | append : Nat → List α → WriteCall α
deriving DecidableEq

/-- The range string of a write call, as formatted at `main.py` line 272. -/
def WriteCall.range : WriteCall α → String
  | .update r _ => "Sheet1!A" ++ toString r
  | .append r _ => "Sheet1!A" ++ toString r

/-- The rows carried by a write call. -/
def WriteCall.payload : WriteCall α → List α
  | .update _ p => p
  | .append _ p => p

/-- Whether a call is an append. -/
def WriteCall.isAppend : WriteCall α → Bool
  | .update _ _ => false
  | .append _ _ => true

/-- Sink semantics of one committed write call: an `update` starting at row
`r` overwrites rows `r .. r + |payload| - 1` in place, an `append` inserts
the payload after the existing content. -/
def applyCall (sink : List α) : WriteCall α → List α
  | .update r p => sink.take (r - 1) ++ p ++ sink.drop (r - 1 + p.length)
  | .append _ p => sink ++ p

/-- Python's `range(start, stop, step)` for positive `step`. -/
def pyRange (start stop step : Nat) : List Nat :=
  List.range' start ((stop - start + step - 1) / step) step

/-- The batch split of `main.py` line 262:
`[values[i:i + BATCH_SIZE] for i in range(0, len(values), BATCH_SIZE)]`. -/
def batchesOf (B : Nat) (values : List α) : List (List α) :=
  (pyRange 0 values.length B).map (fun i => (values.drop i).take B)

/-- The write call issued for batch number `i` (`main.py` lines 271-289):
batch 0 is an overwrite at `Sheet1!A1`, every later batch an append at
`Sheet1!A{i * BATCH_SIZE + 1}`. -/
def callFor (i : Nat) (b : List α) : WriteCall α :=
  if i == 0 then .update 1 b else .append (i * BATCH_SIZE + 1) b

/-- The calls issued for consecutive batches numbered from `i` when no call
fails. -/
def happyCalls : Nat → List (List α) → List (WriteCall α)
  | _, [] => []
  | i, b :: rest => callFor i b :: happyCalls (i + 1) rest

/-- The sink state after committing consecutive batches numbered from `i`. -/
def happySink : List α → Nat → List (List α) → List α
  | sink, _, [] => sink
  | sink, i, b :: rest => happySink (applyCall sink (callFor i b)) (i + 1) rest

/-- How one attempt of the batched write path fails, if it does. -/
inductive BatchFail where
  | http : Nat → BatchFail
  | other : String → BatchFail
deriving DecidableEq

/-- The inner `for i, batch in enumerate(batches)` loop of the batched path
(`main.py` lines 271-291), starting at batch number `i` with the sink in
state `sink`.  `outcome j` is the outcome of batch `j`'s `execute()` call;
the first failing call aborts the rest of the attempt and leaves the sink
unchanged.  Returns the failure (if any), the sink afterwards, and the
committed calls in order. -/
def processBatches (outcome : Nat → ApiOutcome Unit) :
    Nat → List α → List (List α) →
    Option BatchFail × List α × List (WriteCall α)
  | _, sink, [] => (none, sink, [])
  | i, sink, b :: rest =>
    match outcome i with
    | .ok _ =>
      let c := callFor i b
      let next := processBatches outcome (i + 1) (applyCall sink c) rest
      (next.1, next.2.1, c :: next.2.2)
    | .httpError s => (some (.http s), sink, [])
    | .otherError m => (some (.other m), sink, [])

/-- The retry loop of the batched path (`main.py` lines 265-305).
`sched r j` is the outcome of batch `j`'s call on attempt `r`; the sink
state persists across attempts.  Returns the call result, the final sink,
all committed calls in order across attempts, and the backoff waits. -/
def writeBatchedLoop (sched : Nat → Nat → ApiOutcome Unit)
    (batches : List (List α)) :
    Nat → Nat → List α →
    CallResult Unit × List α × List (WriteCall α) × List Nat
  | 0, _, sink => (.failure "Failed to write data to Google Sheet after retries", sink, [], [])
  | fuel + 1, r, sink =>
    match processBatches (sched r) 0 sink batches with
    | (none, sink2, calls) => (.success (), sink2, calls, [])
    | (some (.http s), sink2, calls) =>
      if MAX_RETRIES - 1 ≤ r || !(isRetryableStatus s) then
        (.failure ("Failed to write data to Google Sheet: " ++ httpErrMsg s), sink2, calls, [])
      else
        let w := INITIAL_RETRY_DELAY * 2 ^ r
        let rest := writeBatchedLoop sched batches fuel (r + 1) sink2
        (rest.1, rest.2.1, calls ++ rest.2.2.1, w :: rest.2.2.2)
    | (some (.other m), sink2, calls) =>
      (.failure ("Failed to write data to Google Sheet: " ++ m), sink2, calls, [])

/-- The retry loop of the single-write path (`main.py` lines 308-332): each
attempt issues one `values().update` at `Sheet1!A1` covering all of
`values`; `sched r 0` is its outcome on attempt `r`. -/
def writeSingleLoop (sched : Nat → Nat → ApiOutcome Unit) (values : List α) :
    Nat → Nat → List α →
    CallResult Unit × List α × List (WriteCall α) × List Nat
  | 0, _, sink => (.failure "Failed to write data to Google Sheet after retries", sink, [], [])
  | fuel + 1, r, sink =>
    match sched r 0 with
    | .ok _ =>
      let c : WriteCall α := .update 1 values
      (.success (), applyCall sink c, [c], [])
    | .httpError s =>
      if MAX_RETRIES - 1 ≤ r || !(isRetryableStatus s) then
        (.failure ("Failed to write data to Google Sheet: " ++ httpErrMsg s), sink, [], [])
      else
        let w := INITIAL_RETRY_DELAY * 2 ^ r
        let rest := writeSingleLoop sched values fuel (r + 1) sink
        (rest.1, rest.2.1, rest.2.2.1, w :: rest.2.2.2)
    | .otherError m =>
      (.failure ("Failed to write data to Google Sheet: " ++ m), sink, [], [])

/-- `write_dataframe_to_sheet` (`main.py` lines 238-335) on the prepared
values table `header :: data`, against an initially empty sheet.  The
batched path is taken exactly when `len(values) > BATCH_SIZE`. -/
def write_dataframe_to_sheet (sched : Nat → Nat → ApiOutcome Unit)
    (header : α) (data : List α) :
    CallResult Unit × List α × List (WriteCall α) × List Nat :=
  let values := header :: data
  if values.length > BATCH_SIZE then
    writeBatchedLoop sched (batchesOf BATCH_SIZE values) MAX_RETRIES 0 []
  else
    writeSingleLoop sched values MAX_RETRIES 0 []

/-! ### `prepare_dataframe_for_sheets` (`main.py` lines 147-190) -/

/-- A cell of the DataFrame.  `timestamp` carries the canonical string
representation of a datetime value, `obj` an arbitrary object that
`json.dumps` cannot encode, carrying its `str()` representation.  `naT` is
`pd.NaT`, `pdNA` is `pd.NA`, `nan` a float NaN, `pyNone` Python's `None`. -/
inductive CellValue where
  | str : String → CellValue
  | int : Int → CellValue
  | bool : Bool → CellValue
  | pyNone : CellValue
  | nan : CellValue
  | naT : CellValue
  | pdNA : CellValue
  | timestamp : String → CellValue
  | obj : String → CellValue
deriving DecidableEq

/-- Python's `str()` on a cell. -/
def pyStr : CellValue → String
  | .str s => s
  | .int n => toString n
  | .bool b => if b then "True" else "False"
  | .pyNone => "None"
  | .nan => "nan"
  | .naT => "NaT"
  | .pdNA => "<NA>"
  | .timestamp s => s
  | .obj r => r

/-- Whether `json.dumps` succeeds on a cell.  With the default
`allow_nan=True`, a float NaN is encoded (as the non-standard token `NaN`)
without raising; datetimes, `pd.NaT`, `pd.NA` and arbitrary objects raise
`TypeError`. -/
def serializable : CellValue → Bool
  | .str _ => true
  | .int _ => true
  | .bool _ => true
  | .pyNone => true
  | .nan => true
  | .naT => false
  | .pdNA => false
  | .timestamp _ => false
  | .obj _ => false

/-- `pd.notnull`: false exactly on the missing-value markers. -/
def notnull : CellValue → Bool
  | .pyNone => false
  | .nan => false
  | .naT => false
  | .pdNA => false
  | _ => true

/-- Column dtype, as seen by `select_dtypes(include=['datetime', ...])`. -/
inductive Dtype where
  | datetime : Dtype
  | object : Dtype
deriving DecidableEq

/-- A named DataFrame column. -/
structure Column where
  dtype : Dtype
  cells : List CellValue
deriving DecidableEq

/-- A DataFrame, as a list of columns. -/
def DF := List Column

instance : DecidableEq DF := fun a b => instDecidableEqList a b

/-- `astype(str)` on a column: every cell becomes its `str()` form and the
dtype becomes `object`. -/
def astypeStr (c : Column) : Column :=
  ⟨.object, c.cells.map (fun v => .str (pyStr v))⟩

/-- Lines 164-166: datetime-dtyped columns are converted with
`astype(str)`; note that this turns a `NaT` into the string `"NaT"`. -/
def convertDatetimeCols (c : Column) : Column :=
  if c.dtype == .datetime then astypeStr c else c

/-- Line 169: `replace({pd.NA: None, pd.NaT: None})`. -/
def replaceMarkers : CellValue → CellValue
  | .pdNA => .pyNone
  | .naT => .pyNone
  | v => v

/-- Line 170: `where(pd.notnull(df_copy), None)`. -/
def whereNotNull (v : CellValue) : CellValue :=
  if notnull v then v else .pyNone

/-- Whether `json.dumps(column.tolist())` succeeds. -/
def colSerializable (c : Column) : Bool :=
  c.cells.all serializable

/-- Lines 173-179: the per-column trial encoding; a failing column is
coerced with `astype(str)`. -/
def coerceUnserializableCol (c : Column) : Column :=
  if colSerializable c then c else astypeStr c

/-- `prepare_dataframe_for_sheets` (`main.py` lines 147-190): datetime
columns to strings, missing markers to `None`, per-column trial encoding
with string coercion on failure, and a whole-table trial encoding whose
failure coerces every column to strings. -/
def prepare_dataframe_for_sheets (df : DF) : DF :=
  let d1 : DF := df.map convertDatetimeCols
  let d2 : DF := d1.map (fun c => ⟨c.dtype, c.cells.map replaceMarkers⟩)
  let d3 : DF := d2.map (fun c => ⟨c.dtype, c.cells.map whereNotNull⟩)
  let d4 : DF := d3.map coerceUnserializableCol
  if d4.all colSerializable then d4 else d4.map astypeStr

/-! ### JSON round trip -/

/-- The JSON values produced by encoding prepared cells.  `jnan` is the
non-standard `NaN` token emitted for float NaN under `allow_nan=True`. -/
inductive Json where
  | jnull : Json
  | jstr : String → Json
  | jint : Int → Json
  | jbool : Bool → Json
  | jnan : Json
deriving DecidableEq

/-- `json.dumps` on one cell: `none` when it raises `TypeError`. -/
def encodeCell : CellValue → Option Json
  | .str s => some (.jstr s)
  | .int n => some (.jint n)
  | .bool b => some (.jbool b)
  | .pyNone => some .jnull
  | .nan => some .jnan
  | .naT => none
  | .pdNA => none
  | .timestamp _ => none
  | .obj _ => none

/-- `json.loads` back into a Python value. -/
def decodeCell : Json → CellValue
  | .jnull => .pyNone
  | .jstr s => .str s
  | .jint n => .int n
  | .jbool b => .bool b
  | .jnan => .nan

/-! ### Heap model for the no-mutation guarantee

`df.copy(deep=True)` at line 161 allocates an independent object; every
later statement of `prepare_dataframe_for_sheets` assigns into `df_copy`
only.  This is made explicit with a store of DataFrame objects addressed by
references. -/

/-- A store of live DataFrame objects; a reference is an index. -/
structure Store where
  objs : List DF

/-- Read the object a reference points to. -/
def Store.readRef (st : Store) (r : Nat) : DF :=
  st.objs.getD r []

/-- Overwrite the object a reference points to. -/
def Store.writeRef (st : Store) (r : Nat) (d : DF) : Store :=
  ⟨st.objs.set r d⟩

/-- Allocate a fresh object, returning its reference. -/
def Store.alloc (st : Store) (d : DF) : Store × Nat :=
  (⟨st.objs ++ [d]⟩, st.objs.length)

/-- `prepare_dataframe_for_sheets` acting on the store: the deep copy is a
fresh allocation and each subsequent statement reads and writes only the
copy's reference, mirroring lines 160-190 statement by statement. -/
def prepare_dataframe_for_sheets_st (st : Store) (df : Nat) : Store × Nat :=
  let a := st.alloc (st.readRef df)
  let st1 := a.1
  let cp := a.2
  let st2 := st1.writeRef cp ((st1.readRef cp).map convertDatetimeCols)
  let st3 := st2.writeRef cp
    ((st2.readRef cp).map (fun c => ⟨c.dtype, c.cells.map replaceMarkers⟩))
  let st4 := st3.writeRef cp
    ((st3.readRef cp).map (fun c => ⟨c.dtype, c.cells.map whereNotNull⟩))
  let st5 := st4.writeRef cp ((st4.readRef cp).map coerceUnserializableCol)
  let st6 :=
    if (st5.readRef cp).all colSerializable then st5
    else st5.writeRef cp ((st5.readRef cp).map astypeStr)
  (st6, cp)

/-! ### `load_config` (`main.py` lines 31-65) -/

/-- The required environment variables of `load_config`. -/
def required_vars : List String :=
  ["TRINO_HOST", "TRINO_PORT", "TRINO_USER", "TRINO_CATALOG",
   "TRINO_SCHEMA", "GOOGLE_CLIENT_SECRET_FILE", "TOKEN_PATH",
   "DRIVE_FOLDER_ID"]

/-- Python truthiness of `os.getenv(v)`: false when unset or empty. -/
def envTruthy (env : String → Option String) (v : String) : Bool :=
  match env v with
  | none => false
  | some s => !(s == "")

/-- The assembled configuration dictionary. -/
structure Config where
  host : Option String
  port : Int
  user : Option String
  password : Option String
  catalog : Option String
  schem : Option String
  client_secret_file : Option String
  token_path : Option String
  drive_folder_id : Option String
deriving DecidableEq

/-- Accumulating decimal parser over a character list; fails on the first
non-digit. -/
def parseDigitsAux : List Char → Nat → Option Nat
  | [], acc => some acc
  | c :: cs, acc =>
    if '0' ≤ c ∧ c ≤ '9' then
      parseDigitsAux cs (acc * 10 + (c.toNat - '0'.toNat))
    else none

/-- `int()` applied to `os.getenv('TRINO_PORT')`: `None` and strings that
are not integer literals raise; otherwise the decimal value (with an
optional leading minus sign) is returned. -/
def pyInt (s : Option String) : Option Int :=
  match s with
  | none => none
  | some str =>
    match str.data with
    | [] => none
    | '-' :: [] => none
    | '-' :: cs => (parseDigitsAux cs 0).map (fun n => -(n : Int))
    | cs => (parseDigitsAux cs 0).map (fun n => (n : Int))

/-- Line 47: the required variables that are unset or empty, in order. -/
def missingOf (env : String → Option String) : List String :=
  required_vars.filter (fun v => !(envTruthy env v))

/-- `load_config` (`main.py` lines 31-65) over an abstract environment:
every variable of `required_vars` that is unset or empty is collected, and
a `ValueError` listing all of them is raised if any; otherwise the
configuration is assembled (reading `TRINO_PASSWORD`, which is not
required). -/
def load_config (env : String → Option String) : Except String Config :=
  let missing := missingOf env
  if missing.isEmpty then
    match pyInt (env "TRINO_PORT") with
    | none => .error "invalid literal for int()"
    | some p =>
      .ok ⟨env "TRINO_HOST", p, env "TRINO_USER", env "TRINO_PASSWORD",
        env "TRINO_CATALOG", env "TRINO_SCHEMA",
        env "GOOGLE_CLIENT_SECRET_FILE", env "TOKEN_PATH",
        env "DRIVE_FOLDER_ID"⟩
  else
    .error ("Missing required environment variables: " ++
      String.intercalate ", " missing)

/-! ### Concrete schedules and inputs used to instantiate the theorems -/

/-- A write schedule on which every call succeeds. -/
def allOk : Nat → Nat → ApiOutcome Unit := fun _ _ => .ok ()

/-- 5200 data rows, as in the spec's batching scenario. -/
def rows5200 : List Nat := List.range 5200

/-- 10000 data rows: the 10001-row values table splits into three batches. -/
def rows10000 : List Nat := List.range 10000

/-- A write schedule whose first attempt fails with a 503 on batch 2 and
whose later attempts succeed throughout. -/
def failThenOk : Nat → Nat → ApiOutcome Unit :=
  fun r j => if r == 0 && j == 2 then .httpError 503 else .ok ()

/-- Four rate-limit failures, then success. -/
def c3Attempts : Nat → ApiOutcome String :=
  fun k => if k < 4 then .httpError 429 else .ok "sheet-id"

/-- A non-retryable HTTP 403 on every attempt. -/
def c4Deny : Nat → ApiOutcome String := fun _ => .httpError 403

/-- A non-HTTP exception on every attempt. -/
def c4Exc : Nat → ApiOutcome String := fun _ => .otherError "boom"

/-- A rate-limit failure on every attempt. -/
def c4Limit : Nat → ApiOutcome String := fun _ => .httpError 429

/-- A `files().get` schedule that always succeeds. -/
def c6Get : Nat → ApiOutcome (List String) := fun _ => .ok ["root"]

/-- A `files().update` schedule that hits a rate limit four times, then
succeeds. -/
def c6Upd : Nat → ApiOutcome Unit :=
  fun r => if r < 4 then .httpError 429 else .ok ()

/-- A one-row table holding a null, a timestamp and a primitive value. -/
def roundTable : DF :=
  [⟨.object, [.pyNone]⟩,
   ⟨.datetime, [.timestamp "2024-01-02 03:04:05"]⟩,
   ⟨.object, [.int 7]⟩]

/-- A store holding one DataFrame object. -/
def oneDfStore : Store :=
  ⟨[[⟨.datetime, [.timestamp "2024-01-02 03:04:05", .naT]⟩,
     ⟨.object, [.int 3, .nan, .obj "set()"]⟩]]⟩

/-- An environment with every required variable set but no password. -/
def envNoPassword : String → Option String := fun v =>
  if v == "TRINO_PORT" then some "8080"
  else if required_vars.contains v then some "x" else none

/-- The empty environment. -/
def envEmpty : String → Option String := fun _ => none

/-! ### Lemmas about the batch split -/

theorem range'_shift (b step : Nat) :
    ∀ (n a : Nat), List.range' (a + b) n step = (List.range' a n step).map (· + b)
  | 0, _ => by simp
  | n + 1, a => by
    rw [List.range'_succ, List.range'_succ, List.map_cons,
      ← range'_shift b step n (a + step)]
    have e : a + step + b = a + b + step := by omega
    rw [e]

theorem ceilDiv_pos_step (B n : Nat) (hB : 0 < B) (hn : 0 < n) :
    (n + B - 1) / B = (n - B + B - 1) / B + 1 := by
  rcases le_or_lt n B with hle | hge
  · have e1 : n - B = 0 := by omega
    have e2 : n + B - 1 = (n - 1) + B := by omega
    have d1 : (n - 1) / B = 0 := Nat.div_eq_of_lt (by omega)
    have d2 : (0 + B - 1) / B = 0 := Nat.div_eq_of_lt (by omega)
    rw [e1, e2, Nat.add_div_right _ hB, d1, d2]
  · have e2 : n + B - 1 = (n - 1) + B := by omega
    have e4 : n - B + B - 1 = (n - 1 - B) + B := by omega
    have d3 : (n - 1) / B = (n - 1 - B) / B + 1 :=
      Nat.div_eq_sub_div hB (by omega)
    rw [e2, Nat.add_div_right _ hB, e4, Nat.add_div_right _ hB, d3]

theorem batchesOf_nil {B : Nat} : batchesOf B ([] : List α) = [] := by
  have h : (B - 1) / B = 0 := by
    rcases Nat.eq_zero_or_pos B with h0 | h0
    · simp [h0]
    · exact Nat.div_eq_of_lt (by omega)
  simp [batchesOf, pyRange, h]

theorem batchesOf_cons {B : Nat} (hB : 0 < B) {values : List α} (h : values ≠ []) :
    batchesOf B values = values.take B :: batchesOf B (values.drop B) := by
  have hn : 0 < values.length := List.length_pos.mpr h
  rw [batchesOf, batchesOf, pyRange, pyRange, List.length_drop]
  simp only [Nat.sub_zero]
  rw [ceilDiv_pos_step B values.length hB hn, List.range'_succ]
  simp only [List.map_cons, List.drop_zero, Nat.zero_add]
  congr 1
  rw [show (B : Nat) = 0 + B from (Nat.zero_add B).symm, range'_shift, List.map_map]
  apply List.map_congr_left
  intro i _
  simp [Function.comp, List.drop_drop, Nat.add_comm]

theorem batchesOf_length {B : Nat} (values : List α) :
    (batchesOf B values).length = (values.length + B - 1) / B := by
  simp [batchesOf, pyRange]

theorem batchesOf_flatten {B : Nat} (hB : 0 < B) (values : List α) :
    (batchesOf B values).flatten = values := by
  have H : ∀ (n : Nat) (l : List α), l.length = n → (batchesOf B l).flatten = l := by
    intro n
    induction n using Nat.strong_induction_on with
    | _ n ih =>
      intro l hlen
      cases l with
      | nil => simp [batchesOf_nil]
      | cons a t =>
        rw [batchesOf_cons hB (by simp), List.flatten_cons,
          ih ((a :: t).drop B).length (by simp at hlen ⊢; omega) _ rfl,
          List.take_append_drop]
  exact H values.length values rfl

/-! ### The calls and sink states of a failure-free batch run -/

theorem happyCalls_length (i : Nat) (bs : List (List α)) :
    (happyCalls i bs).length = bs.length := by
  induction bs generalizing i with
  | nil => rfl
  | cons b rest ih => simp [happyCalls, ih]

theorem happyCalls_payload (i : Nat) (bs : List (List α)) :
    (happyCalls i bs).map WriteCall.payload = bs := by
  induction bs generalizing i with
  | nil => rfl
  | cons b rest ih =>
    simp [happyCalls, ih, callFor]
    split <;> simp [WriteCall.payload]

theorem happyCalls_append (i : Nat) (hi : 1 ≤ i) (bs : List (List α)) :
    ∀ c ∈ happyCalls i bs, c.isAppend = true := by
  induction bs generalizing i with
  | nil => intro c hc; cases hc
  | cons b rest ih =>
    intro c hc
    rcases List.mem_cons.mp hc with hc | hc
    · have h0 : (i == 0) = false := by simp <;> omega
      rw [hc]
      simp [callFor, h0, WriteCall.isAppend]
    · exact ih (i + 1) (by omega) c hc

theorem happySink_append (sink : List α) (i : Nat) (hi : 1 ≤ i)
    (bs : List (List α)) : happySink sink i bs = sink ++ bs.flatten := by
  induction bs generalizing i sink with
  | nil => simp [happySink]
  | cons b rest ih =>
    have h0 : (i == 0) = false := by simp <;> omega
    simp [happySink, callFor, h0, applyCall, ih _ (i + 1) (by omega),
      List.append_assoc]

/-- A failure-free inner loop commits every batch. -/
theorem processBatches_ok (outcome : Nat → ApiOutcome Unit)
    (hok : ∀ j, outcome j = .ok ()) :
    ∀ (bs : List (List α)) (i : Nat) (sink : List α),
    processBatches outcome i sink bs = (none, happySink sink i bs, happyCalls i bs)
  | [], i, sink => rfl
  | b :: rest, i, sink => by
    rw [processBatches, hok i]
    simp [processBatches_ok outcome hok rest (i + 1) _, happySink, happyCalls]

/-- An inner loop whose relative batch `k` is the first to fail commits
exactly the first `k` batches and surfaces batch `k`'s error. -/
theorem processBatches_fail (outcome : Nat → ApiOutcome Unit) :
    ∀ (k : Nat) (bs : List (List α)) (i : Nat) (sink : List α),
    (∀ j, j < k → outcome (i + j) = .ok ()) →
    ∀ s, outcome (i + k) = .httpError s → k < bs.length →
    processBatches outcome i sink bs =
      (some (.http s), happySink sink i (bs.take k), happyCalls i (bs.take k))
  | 0, [], _, _, _, _, _, hk => by cases hk
  | 0, b :: rest, i, sink, _, s, hf, _ => by
    rw [processBatches]
    simp only [Nat.add_zero] at hf
    rw [hf]
    simp [happySink, happyCalls]
  | k + 1, [], _, _, _, _, _, hk => by cases hk
  | k + 1, b :: rest, i, sink, hok, s, hf, hk => by
    have h0 := hok 0 (by omega)
    rw [Nat.add_zero] at h0
    rw [processBatches, h0]
    have ih := processBatches_fail outcome k rest (i + 1)
      (applyCall sink (callFor i b))
      (fun j hj => by have := hok (j + 1) (by omega); rwa [show i + (j + 1) = i + 1 + j by omega] at this)
      s (by rwa [show i + 1 + k = i + (k + 1) by omega]) (by simpa using hk)
    simp [ih, happySink, happyCalls]

/-! ### Bounds on calls and backoff waits -/

theorem pow_le_8 {r : Nat} (hr : r ≤ 3) : 2 ^ r ≤ 8 := by
  calc 2 ^ r ≤ 2 ^ 3 := Nat.pow_le_pow_right (by omega) hr
  _ = 8 := by norm_num

theorem createSheetLoop_calls_le (attempts : Nat → ApiOutcome String) :
    ∀ (fuel r : Nat), (createSheetLoop attempts fuel r).2.1 ≤ fuel
  | 0, r => by simp [createSheetLoop]
  | fuel + 1, r => by
    rw [createSheetLoop]
    cases attempts r with
    | ok v => simp
    | otherError m => simp
    | httpError s =>
      simp only
      split
      · simp
      · have ih := createSheetLoop_calls_le attempts fuel (r + 1)
        simp
        omega

theorem createSheetLoop_waits_le (attempts : Nat → ApiOutcome String) :
    ∀ (fuel r : Nat), (createSheetLoop attempts fuel r).2.2.sum ≤ 16 - 2 ^ r
  | 0, r => by simp [createSheetLoop]
  | fuel + 1, r => by
    rw [createSheetLoop]
    cases attempts r with
    | ok v => simp
    | otherError m => simp
    | httpError s =>
      simp only
      split
      · simp
      · rename_i hcond
        have hr : r ≤ 3 := by
          simp [MAX_RETRIES] at hcond
          omega
        have ih := createSheetLoop_waits_le attempts fuel (r + 1)
        have hpow : 2 ^ (r + 1) = 2 ^ r * 2 := Nat.pow_succ 2 r
        have h8 := pow_le_8 hr
        simp [INITIAL_RETRY_DELAY]
        omega

theorem moveSheetLoop_calls_le (getA : Nat → ApiOutcome (List String))
    (updA : Nat → ApiOutcome Unit) :
    ∀ (fuel r : Nat), (moveSheetLoop getA updA fuel r).2.1 ≤ 2 * fuel
  | 0, r => by simp [moveSheetLoop]
  | fuel + 1, r => by
    rw [moveSheetLoop]
    have ih := moveSheetLoop_calls_le getA updA fuel (r + 1)
    cases getA r with
    | otherError m => simp <;> omega
    | httpError s =>
      simp only
      split
      · simp <;> omega
      · simp <;> omega
    | ok ps =>
      cases updA r with
      | ok u => simp <;> omega
      | otherError m => simp <;> omega
      | httpError s =>
        simp only
        split
        · simp <;> omega
        · simp <;> omega

theorem moveSheetLoop_waits_le (getA : Nat → ApiOutcome (List String))
    (updA : Nat → ApiOutcome Unit) :
    ∀ (fuel r : Nat), (moveSheetLoop getA updA fuel r).2.2.sum ≤ 16 - 2 ^ r
  | 0, r => by simp [moveSheetLoop]
  | fuel + 1, r => by
    rw [moveSheetLoop]
    have ih := moveSheetLoop_waits_le getA updA fuel (r + 1)
    have hpow : 2 ^ (r + 1) = 2 ^ r * 2 := Nat.pow_succ 2 r
    cases getA r with
    | otherError m => simp
    | httpError s =>
      simp only
      split
      · simp
      · rename_i hcond
        have hr : r ≤ 3 := by simp [MAX_RETRIES] at hcond; omega
        have h8 := pow_le_8 hr
        simp [INITIAL_RETRY_DELAY]
        omega
    | ok ps =>
      cases updA r with
      | ok u => simp
      | otherError m => simp
      | httpError s =>
        simp only
        split
        · simp
        · rename_i hcond
          have hr : r ≤ 3 := by simp [MAX_RETRIES] at hcond; omega
          have h8 := pow_le_8 hr
          simp [INITIAL_RETRY_DELAY]
          omega

theorem writeBatchedLoop_waits_le (sched : Nat → Nat → ApiOutcome Unit)
    (batches : List (List α)) :
    ∀ (fuel r : Nat) (sink : List α),
    (writeBatchedLoop sched batches fuel r sink).2.2.2.sum ≤ 16 - 2 ^ r
  | 0, r, sink => by simp [writeBatchedLoop]
  | fuel + 1, r, sink => by
    rw [writeBatchedLoop]
    cases hp : processBatches (sched r) 0 sink batches with
    | mk e rest =>
      cases e with
      | none => simp
      | some f =>
        cases f with
        | other m => simp
        | http s =>
          simp only
          split
          · simp
          · rename_i hcond
            have hr : r ≤ 3 := by simp [MAX_RETRIES] at hcond; omega
            have ih := writeBatchedLoop_waits_le sched batches fuel (r + 1) rest.1
            have hpow : 2 ^ (r + 1) = 2 ^ r * 2 := Nat.pow_succ 2 r
            have h8 := pow_le_8 hr
            simp [INITIAL_RETRY_DELAY]
            omega

theorem writeSingleLoop_waits_le (sched : Nat → Nat → ApiOutcome Unit)
    (values : List α) :
    ∀ (fuel r : Nat) (sink : List α),
    (writeSingleLoop sched values fuel r sink).2.2.2.sum ≤ 16 - 2 ^ r
  | 0, r, sink => by simp [writeSingleLoop]
  | fuel + 1, r, sink => by
    rw [writeSingleLoop]
    cases sched r 0 with
    | ok u => simp
    | otherError m => simp
    | httpError s =>
      simp only
      split
      · simp
      · rename_i hcond
        have hr : r ≤ 3 := by simp [MAX_RETRIES] at hcond; omega
        have ih := writeSingleLoop_waits_le sched values fuel (r + 1) sink
        have hpow : 2 ^ (r + 1) = 2 ^ r * 2 := Nat.pow_succ 2 r
        have h8 := pow_le_8 hr
        simp [INITIAL_RETRY_DELAY]
        omega

/-! ### Characterisations of the create-sheet retry loop -/

/-- If, starting at retry index `r`, the next `n` attempts fail retryably
and attempt `r + n` succeeds, the loop returns the success value after
`n + 1` calls, having waited `2 ^ k` before the retry at each index `k`. -/
theorem createSheetLoop_shift (attempts : Nat → ApiOutcome String) (v : String) :
    ∀ (n fuel r : Nat), n < fuel → fuel + r = MAX_RETRIES →
    (∀ k, k < n → ∃ s, attempts (r + k) = .httpError s ∧ isRetryableStatus s = true) →
    attempts (r + n) = .ok v →
    createSheetLoop attempts fuel r =
      (.success v, n + 1, (List.range' r n).map (fun k => INITIAL_RETRY_DELAY * 2 ^ k))
  | n, 0, r, hn, _, _, _ => by omega
  | 0, fuel + 1, r, _, _, _, hok => by
    rw [Nat.add_zero] at hok
    rw [createSheetLoop, hok]
    simp
  | n + 1, fuel + 1, r, hn, hfr, hfail, hok => by
    obtain ⟨s, hs, hsr⟩ := hfail 0 (by omega)
    rw [Nat.add_zero] at hs
    have hfr5 : fuel + 1 + r = 5 := hfr
    have hcond : (decide (MAX_RETRIES - 1 ≤ r) || !(isRetryableStatus s)) = false := by
      simp [hsr, show MAX_RETRIES = 5 from rfl]
      omega
    rw [createSheetLoop, hs]
    simp only [hcond, Bool.false_eq_true, if_false]
    have ih := createSheetLoop_shift attempts v n fuel (r + 1) (by omega) (by omega)
      (fun k hk => by
        have h := hfail (k + 1) (by omega)
        rwa [show r + (k + 1) = r + 1 + k by omega] at h)
      (by rwa [show r + (n + 1) = r + 1 + n by omega] at hok)
    rw [ih, List.range'_succ]
    simp

/-- If every attempt from retry index `r` on fails retryably, the budget is
exhausted: the loop makes all its remaining calls, waits before each one
but the last, and raises the wrapped failure of the final attempt. -/
theorem createSheetLoop_exhaust (attempts : Nat → ApiOutcome String) :
    ∀ (fuel r : Nat), 0 < fuel → fuel + r = MAX_RETRIES →
    (∀ k, k < fuel → ∃ s, attempts (r + k) = .httpError s ∧ isRetryableStatus s = true) →
    ∃ s, attempts (MAX_RETRIES - 1) = .httpError s ∧
      createSheetLoop attempts fuel r =
        (.failure ("Failed to create Google Sheet: " ++ httpErrMsg s), fuel,
          (List.range' r (fuel - 1)).map (fun k => INITIAL_RETRY_DELAY * 2 ^ k))
  | 0, r, h0, _, _ => absurd h0 (by omega)
  | 1, r, _, hfr, hfail => by
    obtain ⟨s, hs, _⟩ := hfail 0 (by omega)
    rw [Nat.add_zero] at hs
    have hfr5 : 1 + r = 5 := hfr
    have h41 : MAX_RETRIES - 1 = r := by
      have h : (4 : Nat) = r := by omega
      exact h
    refine ⟨s, by rw [h41]; exact hs, ?_⟩
    have hcond : (decide (MAX_RETRIES - 1 ≤ r) || !(isRetryableStatus s)) = true := by
      have hd : decide (MAX_RETRIES - 1 ≤ r) = true := by
        have h : MAX_RETRIES - 1 ≤ r := by rw [h41]
        simp [h]
      rw [hd]
      rfl
    rw [createSheetLoop, hs]
    simp only [hcond]
    simp
  | fuel + 2, r, _, hfr, hfail => by
    obtain ⟨s0, hs0, hsr0⟩ := hfail 0 (by omega)
    rw [Nat.add_zero] at hs0
    have hfr5 : fuel + 2 + r = 5 := hfr
    have hcond : (decide (MAX_RETRIES - 1 ≤ r) || !(isRetryableStatus s0)) = false := by
      simp [hsr0, show MAX_RETRIES = 5 from rfl]
      omega
    obtain ⟨s, h4, ih⟩ := createSheetLoop_exhaust attempts (fuel + 1) (r + 1)
      (by omega) (by omega)
      (fun k hk => by
        have h := hfail (k + 1) (by omega)
        rwa [show r + (k + 1) = r + 1 + k by omega] at h)
    refine ⟨s, h4, ?_⟩
    rw [createSheetLoop, hs0]
    simp only [hcond, Bool.false_eq_true, if_false]
    rw [ih]
    have hrange : List.range' r (fuel + 2 - 1) = r :: List.range' (r + 1) (fuel + 1 - 1) := by
      rw [show fuel + 2 - 1 = (fuel + 1 - 1) + 1 by omega, List.range'_succ]
    rw [hrange]
    simp

/-- The sink after a failure-free run of batches `b :: bs` numbered from 0:
the first batch overwrites from row 1, the rest are appended. -/
theorem happySink_zero (sink : List α) (b : List α) (bs : List (List α)) :
    happySink sink 0 (b :: bs) = (b ++ sink.drop b.length) ++ bs.flatten := by
  rw [happySink]
  have hc : callFor 0 b = WriteCall.update 1 b := by simp [callFor]
  rw [hc, happySink_append _ 1 (by omega)]
  simp [applyCall]

/-! ### Claim theorems -/

/-- C3: for every sequence of `n < 5` retryable failures (HttpError with
status 429, 500, 502, 503 or 504) followed by a success, the wrapped
`create_google_sheet` returns the success value with no failure surfaced,
having waited `INITIAL_RETRY_DELAY * 2 ^ k` before the `k`-th retry for
`k = 0 .. n-1`. -/
theorem claim_retryable_then_success (attempts : Nat → ApiOutcome String)
    (n : Nat) (v : String) (hn : n < MAX_RETRIES)
    (hfail : ∀ k, k < n → ∃ s, attempts k = .httpError s ∧ isRetryableStatus s = true)
    (hok : attempts n = .ok v) :
    create_google_sheet attempts =
      (.success v, n + 1, (List.range n).map (fun k => INITIAL_RETRY_DELAY * 2 ^ k)) := by
  have h := createSheetLoop_shift attempts v n MAX_RETRIES 0 hn (by simp)
    (fun k hk => by simpa using hfail k hk)
    (by simpa using hok)
  rw [create_google_sheet, h, List.range_eq_range']

/-- C3 witness: four rate-limit failures then a success on the fifth
attempt: the call returns the sheet id after waits of 1, 2, 4, 8. -/
theorem claim_retryable_then_success_witness :
    create_google_sheet c3Attempts = (.success "sheet-id", 5, [1, 2, 4, 8]) := by
  have h := claim_retryable_then_success c3Attempts 4 "sheet-id" (by decide)
    (fun k hk => ⟨429, by simp [c3Attempts, hk], by decide⟩)
    (by simp [c3Attempts])
  rw [h]
  decide

/-- C4: a non-retryable failure (an HttpError with an unrecognized status,
or any other exception) makes exactly one attempt and immediately raises
the wrapped failure naming the operation and the underlying cause, and
exhausting the five-attempt budget on retryable errors likewise raises the
wrapped failure instead of returning. -/
theorem claim_nonretryable_single_attempt (attempts : Nat → ApiOutcome String) :
    (∀ s, attempts 0 = .httpError s → isRetryableStatus s = false →
      create_google_sheet attempts =
        (.failure ("Failed to create Google Sheet: " ++ httpErrMsg s), 1, [])) ∧
    (∀ m, attempts 0 = .otherError m →
      create_google_sheet attempts =
        (.failure ("Failed to create Google Sheet: " ++ m), 1, [])) ∧
    ((∀ k, k < MAX_RETRIES → ∃ s, attempts k = .httpError s ∧ isRetryableStatus s = true) →
      ∃ s, attempts (MAX_RETRIES - 1) = .httpError s ∧
        create_google_sheet attempts =
          (.failure ("Failed to create Google Sheet: " ++ httpErrMsg s),
            MAX_RETRIES, [1, 2, 4, 8])) := by
  refine ⟨?_, ?_, ?_⟩
  · intro s hs hnr
    rw [create_google_sheet, show MAX_RETRIES = 4 + 1 from rfl, createSheetLoop, hs]
    have hcond : (decide (MAX_RETRIES - 1 ≤ 0) || !(isRetryableStatus s)) = true := by
      rw [hnr]
      rfl
    simp only [hcond]
    simp
  · intro m hm
    rw [create_google_sheet, show MAX_RETRIES = 4 + 1 from rfl, createSheetLoop, hm]
  · intro hfail
    obtain ⟨s, h4, heq⟩ := createSheetLoop_exhaust attempts MAX_RETRIES 0
      (by decide) (by simp) (fun k hk => by simpa using hfail k hk)
    refine ⟨s, h4, ?_⟩
    rw [create_google_sheet, heq]
    have hw : (List.range' 0 (MAX_RETRIES - 1)).map
        (fun k => INITIAL_RETRY_DELAY * 2 ^ k) = [1, 2, 4, 8] := by decide
    rw [hw]

/-- C4 witness: a 403 and a non-HTTP exception each fail after exactly one
call; five 429s in a row exhaust the budget and fail after five calls. -/
theorem claim_nonretryable_single_attempt_witness :
    create_google_sheet c4Deny =
      (.failure ("Failed to create Google Sheet: " ++ httpErrMsg 403), 1, []) ∧
    create_google_sheet c4Exc =
      (.failure ("Failed to create Google Sheet: " ++ "boom"), 1, []) ∧
    create_google_sheet c4Limit =
      (.failure ("Failed to create Google Sheet: " ++ httpErrMsg 429),
        MAX_RETRIES, [1, 2, 4, 8]) := by
  refine ⟨(claim_nonretryable_single_attempt c4Deny).1 403 rfl (by decide),
    (claim_nonretryable_single_attempt c4Exc).2.1 "boom" rfl, ?_⟩
  obtain ⟨s, hs, heq⟩ := (claim_nonretryable_single_attempt c4Limit).2.2
    (fun k _ => ⟨429, rfl, by decide⟩)
  have h429 : (429 : Nat) = s := by
    have h : c4Limit (MAX_RETRIES - 1) = .httpError 429 := rfl
    rw [h] at hs
    injection hs
  rw [← h429] at heq
  exact heq

/-- C6 counterexample: a file move whose `files().update` call is
rate-limited four times makes 10 network calls (a `get` and an `update`
per attempt), exceeding the claimed 5-call bound, and still succeeds. -/
theorem claim_move_exceeds_five_calls :
    (move_sheet_to_folder c6Get c6Upd).1 = .success () ∧
    (move_sheet_to_folder c6Get c6Upd).2.1 = 10 ∧
    ¬ (move_sheet_to_folder c6Get c6Upd).2.1 ≤ MAX_RETRIES := by decide

/-- C6 amended: every wrapped operation makes at most `MAX_RETRIES = 5`
attempts — hence at most 5 network calls for sheet creation and at most
2 per attempt (10 in total) for the file move — and the total wait across
retries is bounded by the geometric series `1 + 2 + 4 + 8 = 15` time
units for each of the three wrapped operations. -/
theorem claim_wrapped_call_bounds {α : Type u} (attempts : Nat → ApiOutcome String)
    (getA : Nat → ApiOutcome (List String)) (updA : Nat → ApiOutcome Unit)
    (sched : Nat → Nat → ApiOutcome Unit) (header : α) (data : List α) :
    (create_google_sheet attempts).2.1 ≤ MAX_RETRIES ∧
    (create_google_sheet attempts).2.2.sum ≤ 15 ∧
    (move_sheet_to_folder getA updA).2.1 ≤ 2 * MAX_RETRIES ∧
    (move_sheet_to_folder getA updA).2.2.sum ≤ 15 ∧
    (write_dataframe_to_sheet sched header data).2.2.2.sum ≤ 15 := by
  refine ⟨createSheetLoop_calls_le attempts MAX_RETRIES 0, ?_,
    moveSheetLoop_calls_le getA updA MAX_RETRIES 0, ?_, ?_⟩
  · have h := createSheetLoop_waits_le attempts MAX_RETRIES 0
    simpa using h
  · have h := moveSheetLoop_waits_le getA updA MAX_RETRIES 0
    simpa using h
  · simp only [write_dataframe_to_sheet]
    split
    · have h := writeBatchedLoop_waits_le sched
        (batchesOf BATCH_SIZE (header :: data)) MAX_RETRIES 0 []
      simpa using h
    · have h := writeSingleLoop_waits_le sched (header :: data) MAX_RETRIES 0 []
      simpa using h

/-- C1: when the prepared values table (header row plus data rows) exceeds
the 5000-row threshold and the first attempt succeeds,
`write_dataframe_to_sheet` issues exactly `ceil(totalRows / 5000)` write
calls — the first an overwrite at `Sheet1!A1`, every later one an append —
and concatenating the chunk payloads in call order yields exactly the
header row followed by all data rows in their original order. -/
theorem claim_batched_write_happy {α : Type u} (sched : Nat → Nat → ApiOutcome Unit)
    (header : α) (data : List α)
    (hlen : BATCH_SIZE < (header :: data).length)
    (hok : ∀ j, sched 0 j = .ok ()) :
    write_dataframe_to_sheet sched header data =
      (.success (), header :: data,
        happyCalls 0 (batchesOf BATCH_SIZE (header :: data)), []) ∧
    (happyCalls 0 (batchesOf BATCH_SIZE (header :: data))).length =
      ((header :: data).length + BATCH_SIZE - 1) / BATCH_SIZE ∧
    ((happyCalls 0 (batchesOf BATCH_SIZE (header :: data))).map
      WriteCall.payload).flatten = header :: data ∧
    (happyCalls 0 (batchesOf BATCH_SIZE (header :: data))).head? =
      some (.update 1 ((header :: data).take BATCH_SIZE)) ∧
    (WriteCall.update 1 ((header :: data).take BATCH_SIZE) : WriteCall α).range =
      "Sheet1!A1" ∧
    ∀ c ∈ (happyCalls 0 (batchesOf BATCH_SIZE (header :: data))).tail,
      c.isAppend = true := by
  have hB : 0 < BATCH_SIZE := by norm_num [BATCH_SIZE]
  have hcons := batchesOf_cons hB (List.cons_ne_nil header data)
  have hsink : happySink ([] : List α) 0 (batchesOf BATCH_SIZE (header :: data)) =
      header :: data := by
    rw [hcons, happySink_zero]
    simp only [List.drop_nil, List.append_nil]
    rw [← List.flatten_cons, ← hcons, batchesOf_flatten hB]
  refine ⟨?_, ?_, ?_, ?_, by rfl, ?_⟩
  · simp only [write_dataframe_to_sheet]
    rw [if_pos hlen, show MAX_RETRIES = 4 + 1 from rfl, writeBatchedLoop,
      processBatches_ok (sched 0) hok _ 0 [], hsink]
  · rw [happyCalls_length, batchesOf_length]
  · rw [happyCalls_payload, batchesOf_flatten hB]
  · rw [hcons]
    simp [happyCalls, callFor]
  · rw [hcons]
    simp only [happyCalls, List.tail_cons]
    exact happyCalls_append 1 (by omega) _

/-- C1 witness: the 5200-data-row scenario: exactly two calls, an overwrite
at row 1 carrying the header plus 4999 data rows (5000 rows), then one
append carrying the remaining 201 data rows. -/
theorem claim_batched_write_happy_witness :
    write_dataframe_to_sheet allOk (0 : Nat) rows5200 =
      (.success (), (0 : Nat) :: rows5200,
        [.update 1 (((0 : Nat) :: rows5200).take BATCH_SIZE),
         .append (BATCH_SIZE + 1) (((0 : Nat) :: rows5200).drop BATCH_SIZE)], []) ∧
    (((0 : Nat) :: rows5200).take BATCH_SIZE).length = 5000 ∧
    (((0 : Nat) :: rows5200).drop BATCH_SIZE).length = 201 := by
  have hB : 0 < BATCH_SIZE := by norm_num [BATCH_SIZE]
  have hlen : BATCH_SIZE < ((0 : Nat) :: rows5200).length := by
    simp [rows5200, BATCH_SIZE]
  have hdrop : (((0 : Nat) :: rows5200).drop BATCH_SIZE).length = 201 := by
    simp [rows5200, BATCH_SIZE]
  have h := claim_batched_write_happy allOk (0 : Nat) rows5200 hlen (fun _ => rfl)
  have hcalls : happyCalls 0 (batchesOf BATCH_SIZE ((0 : Nat) :: rows5200)) =
      [.update 1 (((0 : Nat) :: rows5200).take BATCH_SIZE),
       .append (BATCH_SIZE + 1) (((0 : Nat) :: rows5200).drop BATCH_SIZE)] := by
    have ht : ((((0 : Nat) :: rows5200).drop BATCH_SIZE).take BATCH_SIZE) =
        ((0 : Nat) :: rows5200).drop BATCH_SIZE :=
      List.take_of_length_le (by rw [hdrop]; norm_num [BATCH_SIZE])
    have hd : ((((0 : Nat) :: rows5200).drop BATCH_SIZE).drop BATCH_SIZE) = [] :=
      List.drop_eq_nil_of_le (by rw [hdrop]; norm_num [BATCH_SIZE])
    rw [batchesOf_cons hB (List.cons_ne_nil 0 rows5200),
      batchesOf_cons hB (by rw [← List.length_pos, hdrop]; omega),
      ht, hd, batchesOf_nil]
    simp [happyCalls, callFor]
  refine ⟨?_, ?_, hdrop⟩
  · rw [h.1, hcalls]
  · simp [rows5200, BATCH_SIZE]

/-- C5: a values table whose total row count (header plus data) is within
the 5000-row threshold is delivered, when the first attempt succeeds, by
exactly one write call: an overwrite at `Sheet1!A1` covering the whole
header-plus-data range. -/
theorem claim_single_write {α : Type u} (sched : Nat → Nat → ApiOutcome Unit)
    (header : α) (data : List α)
    (hlen : (header :: data).length ≤ BATCH_SIZE)
    (hok : sched 0 0 = .ok ()) :
    write_dataframe_to_sheet sched header data =
      (.success (), header :: data, [.update 1 (header :: data)], []) ∧
    (WriteCall.update 1 (header :: data) : WriteCall α).range = "Sheet1!A1" := by
  constructor
  · simp only [write_dataframe_to_sheet]
    rw [if_neg (Nat.not_lt.mpr hlen), show MAX_RETRIES = 4 + 1 from rfl,
      writeSingleLoop, hok]
    simp [applyCall]
  · rfl

/-- C5 witness: a three-data-row table is written with a single overwrite
covering all four rows. -/
theorem claim_single_write_witness :
    write_dataframe_to_sheet allOk (0 : Nat) [1, 2, 3] =
      (.success (), [0, 1, 2, 3], [.update 1 [0, 1, 2, 3]], []) := by
  exact (claim_single_write allOk (0 : Nat) [1, 2, 3] (by decide) rfl).1

/-- C2: in the batched path, if a retryable HttpError is raised while
writing chunk `k` after chunks `0 .. k-1` have been committed, the retry
re-executes every chunk from index 0: chunk 0 is rewritten with overwrite
semantics, chunks `1 .. k-1` are issued as appends a second time, and the
final sink holds the rows of chunks `1 .. k-1` twice. -/
theorem claim_batched_retry_duplicates {α : Type u} (sched : Nat → Nat → ApiOutcome Unit)
    (header : α) (data : List α) (k s : Nat)
    (hlen : BATCH_SIZE < (header :: data).length)
    (hk1 : 1 ≤ k) (hk2 : k < (batchesOf BATCH_SIZE (header :: data)).length)
    (hs : isRetryableStatus s = true)
    (h0ok : ∀ j, j < k → sched 0 j = .ok ())
    (h0f : sched 0 k = .httpError s)
    (h1ok : ∀ j, sched 1 j = .ok ()) :
    write_dataframe_to_sheet sched header data =
      (.success (),
        (header :: data).take BATCH_SIZE ++
          (((batchesOf BATCH_SIZE (header :: data)).tail.take (k - 1)).flatten ++
            (((batchesOf BATCH_SIZE (header :: data)).tail.take (k - 1)).flatten ++
              ((batchesOf BATCH_SIZE (header :: data)).tail.drop (k - 1)).flatten)),
        happyCalls 0 ((batchesOf BATCH_SIZE (header :: data)).take k) ++
          happyCalls 0 (batchesOf BATCH_SIZE (header :: data)),
        [1]) := by
  obtain ⟨n, rfl⟩ : ∃ n, k = n + 1 := ⟨k - 1, by omega⟩
  have hB : 0 < BATCH_SIZE := by norm_num [BATCH_SIZE]
  have hcons := batchesOf_cons hB (List.cons_ne_nil header data)
  have htail : (batchesOf BATCH_SIZE (header :: data)).tail =
      batchesOf BATCH_SIZE ((header :: data).drop BATCH_SIZE) := by
    rw [hcons]
    rfl
  have hflat : (batchesOf BATCH_SIZE ((header :: data).drop BATCH_SIZE)).flatten =
      ((batchesOf BATCH_SIZE ((header :: data).drop BATCH_SIZE)).take n).flatten ++
        ((batchesOf BATCH_SIZE ((header :: data).drop BATCH_SIZE)).drop n).flatten := by
    conv_lhs =>
      rw [← List.take_append_drop n (batchesOf BATCH_SIZE ((header :: data).drop BATCH_SIZE))]
    rw [List.flatten_append]
  have hsink1 : happySink ([] : List α) 0
      ((batchesOf BATCH_SIZE (header :: data)).take (n + 1)) =
      (header :: data).take BATCH_SIZE ++
        ((batchesOf BATCH_SIZE ((header :: data).drop BATCH_SIZE)).take n).flatten := by
    rw [hcons, List.take_succ_cons, happySink_zero]
    simp
  have hsink2 : happySink ((header :: data).take BATCH_SIZE ++
        ((batchesOf BATCH_SIZE ((header :: data).drop BATCH_SIZE)).take n).flatten) 0
        (batchesOf BATCH_SIZE (header :: data)) =
      (header :: data).take BATCH_SIZE ++
        (((batchesOf BATCH_SIZE ((header :: data).drop BATCH_SIZE)).take n).flatten ++
          (((batchesOf BATCH_SIZE ((header :: data).drop BATCH_SIZE)).take n).flatten ++
            ((batchesOf BATCH_SIZE ((header :: data).drop BATCH_SIZE)).drop n).flatten)) := by
    rw [hcons, happySink_zero, List.drop_left, hflat, List.append_assoc]
  have hcond : (decide (MAX_RETRIES - 1 ≤ 0) || !(isRetryableStatus s)) = false := by
    rw [hs]
    rfl
  simp only [write_dataframe_to_sheet]
  rw [if_pos hlen, show MAX_RETRIES = 4 + 1 from rfl, writeBatchedLoop,
    processBatches_fail (sched 0) (n + 1) _ 0 []
      (fun j hj => by simpa using h0ok j hj) s (by simpa using h0f) hk2]
  simp only [hcond, Bool.false_eq_true, if_false]
  rw [show (4 : Nat) = 3 + 1 from rfl, writeBatchedLoop,
    processBatches_ok (sched 1) h1ok _ 0 _]
  simp only [Nat.add_sub_cancel, htail]
  rw [hsink1, hsink2]
  norm_num [INITIAL_RETRY_DELAY]

/-- C2 witness: 10000 data rows (three chunks) with a 503 on chunk 2 of the
first attempt: the retry recommits chunks 0 and 1, the run succeeds, and
chunk 1's 5000 rows appear twice in the final sink. -/
theorem claim_batched_retry_duplicates_witness :
    write_dataframe_to_sheet failThenOk (0 : Nat) rows10000 =
      (.success (),
        ((0 : Nat) :: rows10000).take BATCH_SIZE ++
          (((batchesOf BATCH_SIZE ((0 : Nat) :: rows10000)).tail.take 1).flatten ++
            (((batchesOf BATCH_SIZE ((0 : Nat) :: rows10000)).tail.take 1).flatten ++
              ((batchesOf BATCH_SIZE ((0 : Nat) :: rows10000)).tail.drop 1).flatten)),
        happyCalls 0 ((batchesOf BATCH_SIZE ((0 : Nat) :: rows10000)).take 2) ++
          happyCalls 0 (batchesOf BATCH_SIZE ((0 : Nat) :: rows10000)),
        [1]) ∧
    ((batchesOf BATCH_SIZE ((0 : Nat) :: rows10000)).tail.take 1).flatten.length = 5000 := by
  have hB : 0 < BATCH_SIZE := by norm_num [BATCH_SIZE]
  have hdlen : (((0 : Nat) :: rows10000).drop BATCH_SIZE).length = 5001 := by
    simp [rows10000, BATCH_SIZE]
  constructor
  · exact claim_batched_retry_duplicates failThenOk 0 rows10000 2 503
      (by simp [rows10000, BATCH_SIZE]) (by omega)
      (by rw [batchesOf_length]; simp [rows10000]; norm_num [BATCH_SIZE])
      (by decide) (by decide) rfl (fun _ => rfl)
  · rw [batchesOf_cons hB (List.cons_ne_nil 0 rows10000), List.tail_cons,
      batchesOf_cons hB (show ((0 : Nat) :: rows10000).drop BATCH_SIZE ≠ [] by
        rw [← List.length_pos, hdlen]; omega),
      List.take_succ_cons, List.take_zero]
    simp [List.length_take, hdlen]
    norm_num [BATCH_SIZE]

/-! ### Serialization, store and configuration lemmas -/

theorem colSerializable_astypeStr (c : Column) :
    colSerializable (astypeStr c) = true := by
  simp only [colSerializable, astypeStr, List.all_map]
  simp [List.all_eq_true, Function.comp, serializable]

/-- C7: for every input DataFrame, the table returned by
`prepare_dataframe_for_sheets` is fully encodable: JSON-encoding every cell
of every returned column succeeds. -/
theorem claim_prepare_always_serializable (df : DF) :
    (prepare_dataframe_for_sheets df).all colSerializable = true := by
  simp only [prepare_dataframe_for_sheets]
  split
  · assumption
  · rw [List.all_map]
    simp [List.all_eq_true, Function.comp, colSerializable_astypeStr]

/-- C8: normalizing a table containing a null, a timestamp and an
already-primitive value, then encoding it, succeeds, and decoding yields
the absence marker, the canonical date string, and the original primitive
value unchanged. -/
theorem claim_prepare_roundtrip :
    (prepare_dataframe_for_sheets roundTable).map
        (fun c => c.cells.map (fun v => (encodeCell v).map decodeCell)) =
      [[some .pyNone], [some (.str "2024-01-02 03:04:05")], [some (.int 7)]] := by
  decide

theorem Store.readRef_writeRef_self (st : Store) (r : Nat) (d : DF)
    (h : r < st.objs.length) : (st.writeRef r d).readRef r = d := by
  simp [Store.readRef, Store.writeRef, List.getD, List.getElem?_set_self h]

theorem Store.readRef_writeRef_ne (st : Store) (r r' : Nat) (d : DF)
    (h : r ≠ r') : (st.writeRef r d).readRef r' = st.readRef r' := by
  simp [Store.readRef, Store.writeRef, List.getD, List.getElem?_set_ne h]

/-- The store version of `prepare_dataframe_for_sheets` allocates one fresh
object and its final store is the allocated store with just that object
overwritten by the prepared value. -/
theorem prepare_st_spec (st : Store) (df : Nat) (h : df < st.objs.length) :
    prepare_dataframe_for_sheets_st st df =
      (Store.mk ((st.objs ++ [st.readRef df]).set st.objs.length
          (prepare_dataframe_for_sheets (st.readRef df))), st.objs.length) := by
  simp only [prepare_dataframe_for_sheets_st, Store.alloc, Store.writeRef,
    Store.readRef, prepare_dataframe_for_sheets]
  simp [List.getD, List.getElem?_set_self, List.getElem?_concat_length,
    List.set_set, List.length_set, List.length_append, Nat.lt_succ_self]
  split <;> rfl

/-- C9: `prepare_dataframe_for_sheets` never mutates its input: it operates
on an independent deep copy at a fresh reference, the original object is
unchanged after the call, and the copy holds exactly the prepared value. -/
theorem claim_prepare_no_mutation (st : Store) (df : Nat)
    (h : df < st.objs.length) :
    (prepare_dataframe_for_sheets_st st df).1.readRef df = st.readRef df ∧
    (prepare_dataframe_for_sheets_st st df).2 ≠ df ∧
    (prepare_dataframe_for_sheets_st st df).1.readRef
        (prepare_dataframe_for_sheets_st st df).2 =
      prepare_dataframe_for_sheets (st.readRef df) := by
  have hne : st.objs.length ≠ df := by omega
  rw [prepare_st_spec st df h]
  refine ⟨?_, hne, ?_⟩
  · simp [Store.readRef, List.getD, List.getElem?_set_ne hne,
      List.getElem?_append_left h]
  · simp [Store.readRef, List.getD]

/-- C9 witness: a store with one two-column DataFrame: after the call the
original object is untouched and the fresh copy holds the prepared value. -/
theorem claim_prepare_no_mutation_witness :
    (prepare_dataframe_for_sheets_st oneDfStore 0).1.readRef 0 =
      oneDfStore.readRef 0 ∧
    (prepare_dataframe_for_sheets_st oneDfStore 0).2 ≠ 0 ∧
    (prepare_dataframe_for_sheets_st oneDfStore 0).1.readRef
        (prepare_dataframe_for_sheets_st oneDfStore 0).2 =
      prepare_dataframe_for_sheets (oneDfStore.readRef 0) :=
  claim_prepare_no_mutation oneDfStore 0 (by decide)

/-- C10 counterexample: with every variable of `required_vars` set but
`TRINO_PASSWORD` unset, `load_config` succeeds rather than failing — the
warehouse password, part of the claimed required credentials, is not
required by the code. -/
theorem claim_config_password_optional :
    envNoPassword "TRINO_PASSWORD" = none ∧
    load_config envNoPassword =
      .ok ⟨some "x", 8080, some "x", none, some "x", some "x", some "x",
        some "x", some "x"⟩ :=
  ⟨rfl, rfl⟩

/-- C10 amended: the eight listed configuration values — warehouse host,
port, username, catalog, schema, OAuth client-secret file path, token cache
file path and destination folder id — are required: whenever any of them is
unset or empty, `load_config` fails fast with a failure listing exactly the
missing ones; the warehouse password is read but optional, and when every
required value is set (and the port parses as an integer) the assembled
configuration is returned. -/
theorem claim_config_required_vars (env : String → Option String) :
    (missingOf env ≠ [] →
      load_config env = .error ("Missing required environment variables: " ++
        String.intercalate ", " (missingOf env))) ∧
    (missingOf env = [] → ∀ p, pyInt (env "TRINO_PORT") = some p →
      load_config env = .ok ⟨env "TRINO_HOST", p, env "TRINO_USER",
        env "TRINO_PASSWORD", env "TRINO_CATALOG", env "TRINO_SCHEMA",
        env "GOOGLE_CLIENT_SECRET_FILE", env "TOKEN_PATH",
        env "DRIVE_FOLDER_ID"⟩) := by
  constructor
  · intro hne
    rw [load_config]
    have hemp : (missingOf env).isEmpty = false := by
      cases hm : missingOf env with
      | nil => exact absurd hm hne
      | cons a t => rfl
    simp only [hemp, Bool.false_eq_true, if_false]
  · intro hm p hp
    rw [load_config]
    have hemp : (missingOf env).isEmpty = true := by
      rw [hm]
      rfl
    simp only [hemp, if_true]
    rw [hp]

/-- C10 witness: the empty environment fails listing all eight required
variables; an environment with all eight set (password aside) returns the
assembled configuration. -/
theorem claim_config_required_vars_witness :
    load_config envEmpty =
      .error ("Missing required environment variables: " ++
        String.intercalate ", " required_vars) ∧
    load_config envNoPassword =
      .ok ⟨some "x", 8080, some "x", none, some "x", some "x", some "x",
        some "x", some "x"⟩ :=
  ⟨(claim_config_required_vars envEmpty).1 (by decide),
   (claim_config_required_vars envNoPassword).2 rfl 8080 rfl⟩

end TrinoGsheets
